import Mathlib

/-
Shallow embedding of the remote-control bridge in
`mcp-server/src/tools/editor-control.ts`, together with theorems about its
orchestration behaviour.  Network calls are modelled by an explicit oracle
(`Nat → CallResult`) giving, for the n-th HTTP call an invocation makes,
either a thrown transport error or the normalized envelope the call
resolved to.  Each tool handler is translated into a pure function from its
(zod-validated) arguments and the oracle to the produced report plus the
trace of RPC calls it issued and the step log it accumulated.
-/

namespace UEBridge

/-
Parameter values appearing in the RPC call bodies constructed by the
bridge.  The source passes JSON values; only booleans, numbers, strings and
the fixed vector / rotator / color object shapes occur as parameters, so
they are embedded as a flat sum.  JS numbers are embedded as integers
(every parameter value is only constructed and passed through, never
computed with).
-/
inductive PVal where
  | pb (v : Bool)
  | pn (v : Int)
  | ps (v : String)
  | pvec (x y z : Int)
  | prot (pitch yaw roll : Int)
  | pcol (r g b a : Int)
deriving DecidableEq, Repr

/-
One invocation of `rcCall(objectPath, functionName, parameters)`
(editor-control.ts line 130).  `rcCall` always adds
`generateTransaction: true` to the body; that constant field is not
repeated here.
-/
structure RcCall where
  objectPath : String
  functionName : String
  parameters : List (String × PVal)
deriving DecidableEq, Repr

/-
An entry of a composite operation's step log.  The source pushes plain
strings and marks failed steps with a `Warning: ` prefix; the embedding
keeps the branch that produced the entry visible and `render` recovers the
exact source string.
-/
inductive StepEntry where
  | info (msg : String)
  | warning (msg : String)
deriving DecidableEq, Repr

def StepEntry.render : StepEntry → String
  | .info m => m
  | .warning m => "Warning: " ++ m

def isWarning : StepEntry → Bool
  | .info _ => false
  | .warning _ => true

/-
Result of one awaited RPC call as the orchestration code observes it:
either `rcFetch` threw (timeout / connection failure, carrying the thrown
message) or it resolved to an envelope.  `returnValue` is the value of
`data?.ReturnValue` when present and `dataStr` stands for
`JSON.stringify(data)` as used in error messages.
-/
inductive CallResult where
  | thrown (msg : String)
  | env (ok : Bool) (status : Nat) (returnValue : Option String) (dataStr : String)
deriving DecidableEq, Repr

/-
An MCP tool result: `textResult` (line 64) or `errorResult` (line 68,
which renders as `Error: ` + message with `isError: true`).
-/
inductive ToolResult where
  | text (s : String)
  | error (s : String)
deriving DecidableEq, Repr

/-
JS truthiness on `data?.ReturnValue`: `if (!actorPath)` treats both an
absent value and the empty string as missing.
-/
def jsTruthyStr : Option String → Option String
  | none => none
  | some s => if s = "" then none else some s

/-
The rcFetch model (editor-control.ts lines 26-60).  The HTTP layer's
contribution is a status and a body text (or a transport failure); `res.ok`
is, per the WHATWG fetch standard, exactly `status` in [200, 300).  The
body is passed to `JSON.parse`, modelled by the abstract `parse` argument;
on parse failure the raw text is kept.  Transport failures are re-thrown
with the messages of lines 54 and 56, embedded as `Except.error`.
-/
inductive FetchData (α : Type) where
  | json (v : α)
  | raw (text : String)
deriving DecidableEq, Repr

structure RcResponse (α : Type) where
  ok : Bool
  status : Nat
  data : FetchData α
deriving DecidableEq, Repr

inductive HttpOutcome where
  | timeout
  | connectFail (msg : String)
  | response (status : Nat) (bodyText : String)

def rcFetch {α : Type} (url : String) (out : HttpOutcome)
    (parse : String → Option α) : Except String (RcResponse α) :=
  match out with
  | .timeout => .error ("Request to " ++ url ++ " timed out after 10s")
  | .connectFail m => .error ("Failed to connect to UE5 editor at " ++ url ++ ": " ++ m)
  | .response status bodyText =>
    .ok { ok := decide (200 ≤ status ∧ status < 300)
          status := status
          data := match parse bodyText with
                  | some j => .json j
                  | none => .raw bodyText }

/-
Lookup tables (editor-control.ts lines 74-97), embedded as association
lists with the record's keys in declaration order.
-/
def ENGINE_MESHES : List (String × String) :=
  [("Cube", "/Engine/BasicShapes/Cube.Cube"),
   ("Sphere", "/Engine/BasicShapes/Sphere.Sphere"),
   ("Cylinder", "/Engine/BasicShapes/Cylinder.Cylinder"),
   ("Cone", "/Engine/BasicShapes/Cone.Cone"),
   ("Plane", "/Engine/BasicShapes/Plane.Plane")]

def ACTOR_CLASSES : List (String × String) :=
  [("StaticMeshActor", "/Script/Engine.StaticMeshActor"),
   ("PointLight", "/Script/Engine.PointLight"),
   ("SpotLight", "/Script/Engine.SpotLight"),
   ("DirectionalLight", "/Script/Engine.DirectionalLight"),
   ("CameraActor", "/Script/Engine.CameraActor"),
   ("PlayerStart", "/Script/Engine.PlayerStart"),
   ("TriggerBox", "/Script/Engine.TriggerBox"),
   ("TriggerSphere", "/Script/Engine.TriggerSphere"),
   ("BlockingVolume", "/Script/Engine.BlockingVolume"),
   ("ExponentialHeightFog", "/Script/Engine.ExponentialHeightFog"),
   ("SkyLight", "/Script/Engine.SkyLight"),
   ("DecalActor", "/Script/Engine.DecalActor"),
   ("Note", "/Script/Engine.Note"),
   ("TextRenderActor", "/Script/Engine.TextRenderActor")]

/-
`ENGINE_MESHES[mesh] || mesh` (line 256) and
`ACTOR_CLASSES[actor_class] || actor_class` (line 229): table lookup with
pass-through for unknown tokens (every table value is a non-empty string,
so JS falsy fallback coincides with the missing-key fallback).
-/
def resolveMesh (t : String) : String := (ENGINE_MESHES.lookup t).getD t

def resolveClass (t : String) : String := (ACTOR_CLASSES.lookup t).getD t

/- A `lookup` hit returns one of the table's values. -/
theorem lookup_mem_values (l : List (String × String)) (t v : String)
    (h : l.lookup t = some v) : v ∈ l.map Prod.snd := by
  induction l with
  | nil => simp [List.lookup] at h
  | cons hd tl ih =>
    obtain ⟨k, b⟩ := hd
    rw [List.lookup] at h
    by_cases hk : t == k
    · simp [hk] at h
      simp [h]
    · simp only [Bool.not_eq_true] at hk
      rw [hk] at h
      exact List.mem_cons_of_mem _ (ih h)

/-
Geometry argument shapes after zod validation (editor-control.ts lines
101-126).  Coordinates are embedded as integers; they are only passed
through into call bodies.
-/
structure Vec3 where
  x : Int
  y : Int
  z : Int
deriving DecidableEq, Repr

structure Rot3 where
  pitch : Int
  yaw : Int
  roll : Int
deriving DecidableEq, Repr

/-
Arguments of `ue5_spawn_actor` after zod validation (lines 197-218);
defaults (`actor_class = "StaticMeshActor"`, `simulate_physics = false`)
are already applied by the schema, so the fields hold post-default values.
The arguments form a record: there is no notion of the order in which the
caller supplied them.
-/
structure SpawnArgs where
  actor_class : String
  mesh : Option String
  label : Option String
  location : Option Vec3
  rotation : Option Rot3
  scale : Option Vec3
  simulate_physics : Bool
deriving DecidableEq, Repr

/-
Running state of a composite invocation: `n` is the number of RPC calls
made so far (the index the next call will consume from the oracle),
`calls` the ordered trace of `rcCall` invocations, `steps` the
accumulated step log.
-/
structure RunSt where
  n : Nat
  calls : List RcCall
  steps : List StepEntry
deriving DecidableEq, Repr

/-
One optional configuration step of `ue5_spawn_actor`: make the call; if the
transport threw, abort with the thrown message (the surrounding `try`
turns it into `errorResult`); otherwise append the success message or the
`Warning:` message carrying the status, and continue.
-/
def configStep (oracle : Nat → CallResult) (st : RunSt) (c : RcCall)
    (okMsg : String) (warnMsg : Nat → String) : RunSt × Option String :=
  match oracle st.n with
  | .thrown m => (⟨st.n + 1, st.calls ++ [c], st.steps⟩, some m)
  | .env ok status _ _ =>
    (⟨st.n + 1, st.calls ++ [c],
      st.steps ++ [if ok then .info okMsg else .warning (warnMsg status)]⟩, none)

/- Sequencing of steps: a thrown transport error aborts the chain. -/
def seqStep (r : RunSt × Option String) (f : RunSt → RunSt × Option String) :
    RunSt × Option String :=
  match r with
  | (st, some m) => (st, some m)
  | (st, none) => f st

def noErr (st : RunSt) : RunSt × Option String := (st, none)

/- The call bodies `ue5_spawn_actor` constructs (lines 232-321). -/
def spawnActorCall (classPath : String) (location : Option Vec3) : RcCall :=
  { objectPath := "/Script/UnrealEd.Default__EditorActorSubsystem"
    functionName := "SpawnActorFromClass"
    parameters := [("ActorClass", .ps classPath),
      ("Location", match location with
        | some l => .pvec l.x l.y l.z
        | none => .pvec 0 0 0)] }

def meshSetCall (comp meshPath : String) : RcCall :=
  ⟨comp, "SetStaticMesh", [("NewMesh", .ps meshPath)]⟩

def mobilityCall (comp : String) : RcCall :=
  ⟨comp, "SetMobility", [("NewMobility", .ps "Movable")]⟩

def simulateCall (comp : String) : RcCall :=
  ⟨comp, "SetSimulatePhysics", [("bSimulate", .pb true)]⟩

def gravityCall (comp : String) : RcCall :=
  ⟨comp, "SetEnableGravity", [("bGravityEnabled", .pb true)]⟩

def labelCall (path lb : String) : RcCall :=
  ⟨path, "SetActorLabel", [("NewActorLabel", .ps lb)]⟩

def rotationCall (path : String) (r : Rot3) : RcCall :=
  ⟨path, "K2_SetActorRotation",
    [("NewRotation", .prot r.pitch r.yaw r.roll), ("bTeleportPhysics", .pb true)]⟩

def scaleCall (path : String) (s : Vec3) : RcCall :=
  ⟨path, "SetActorScale3D", [("NewScale3D", .pvec s.x s.y s.z)]⟩

def renderSpawnReport (actorPath : String) (steps : List StepEntry) : String :=
  "## Actor Spawned\n\n- **Path**: `" ++ actorPath ++ "`\n" ++
    String.intercalate "\n" (steps.map (fun s => "- " ++ s.render))

/-
The composite spawn orchestration (editor-control.ts lines 226-331).
Step 1 spawns via `SpawnActorFromClass`; a non-ok envelope or a missing
(or falsy) `ReturnValue` aborts with `errorResult` before any
configuration call.  Then the optional steps run in the declared source
order — mesh, (mobility, simulate, gravity) when physics is requested,
label, rotation, scale — each appending a success or warning entry and
never aborting the chain; a thrown transport error anywhere is caught and
becomes `errorResult(err.message)`.
-/
def ue5_spawn_actor (a : SpawnArgs) (oracle : Nat → CallResult) :
    ToolResult × RunSt :=
  let classPath := resolveClass a.actor_class
  let st0 : RunSt := ⟨1, [spawnActorCall classPath a.location], []⟩
  match oracle 0 with
  | .thrown m => (.error m, st0)
  | .env ok status returnValue dataStr =>
    if ok then
      match jsTruthyStr returnValue with
      | none => (.error ("Spawn returned no actor path. Response: " ++ dataStr), st0)
      | some actorPath =>
        let meshComp := actorPath ++ ".StaticMeshComponent0"
        let st1 : RunSt :=
          ⟨1, st0.calls, [.info ("Spawned `" ++ classPath ++ "` → `" ++ actorPath ++ "`")]⟩
        let r2 := match a.mesh with
          | none => noErr st1
          | some m =>
            configStep oracle st1 (meshSetCall meshComp (resolveMesh m))
              ("Set mesh: " ++ resolveMesh m)
              (fun s => "Failed to set mesh (" ++ toString s ++ ")")
        let r3 := seqStep r2 (fun st =>
          if a.simulate_physics then
            seqStep (configStep oracle st (mobilityCall meshComp)
                "Set mobility: Movable"
                (fun s => "Failed to set mobility (" ++ toString s ++ ")")) (fun st =>
              seqStep (configStep oracle st (simulateCall meshComp)
                  "Enabled physics simulation"
                  (fun s => "Failed to enable physics (" ++ toString s ++ ")")) (fun st =>
                configStep oracle st (gravityCall meshComp)
                  "Enabled gravity"
                  (fun s => "Failed to enable gravity (" ++ toString s ++ ")")))
          else noErr st)
        let r4 := seqStep r3 (fun st =>
          match a.label with
          | none => noErr st
          | some lb =>
            configStep oracle st (labelCall actorPath lb)
              ("Set label: \"" ++ lb ++ "\"")
              (fun s => "Failed to set label (" ++ toString s ++ ")"))
        let r5 := seqStep r4 (fun st =>
          match a.rotation with
          | none => noErr st
          | some r =>
            configStep oracle st (rotationCall actorPath r)
              ("Set rotation: pitch=" ++ toString r.pitch ++ " yaw=" ++ toString r.yaw ++
                " roll=" ++ toString r.roll)
              (fun s => "Failed to set rotation (" ++ toString s ++ ")"))
        let r6 := seqStep r5 (fun st =>
          match a.scale with
          | none => noErr st
          | some sc =>
            configStep oracle st (scaleCall actorPath sc)
              ("Set scale: " ++ toString sc.x ++ ", " ++ toString sc.y ++ ", " ++ toString sc.z)
              (fun s => "Failed to set scale (" ++ toString s ++ ")"))
        match r6 with
        | (st, some m) => (.error m, st)
        | (st, none) => (.text (renderSpawnReport actorPath st.steps), st)
    else (.error ("Spawn failed (HTTP " ++ toString status ++ "): " ++ dataStr), st0)

/- A step-log entry produced by a configuration call with outcome `ok`. -/
def entryIf (ok : Bool) (okMsg warnMsg : String) : StepEntry :=
  if ok then .info okMsg else .warning warnMsg

/- Number of step-log entries a spawn invocation with arguments `a`
produces once the primary action has succeeded: the spawn entry plus one
per requested configuration call (three for the physics triplet). -/
def spawnStepCount (a : SpawnArgs) : Nat :=
  1 + (if a.mesh.isSome then 1 else 0) + (if a.simulate_physics then 3 else 0) +
    (if a.label.isSome then 1 else 0) + (if a.rotation.isSome then 1 else 0) +
    (if a.scale.isSome then 1 else 0)

/- Closed form of the step log of a successful spawn run whose n-th call
resolved to an envelope with outcome `okF n` and status `stF n`. -/
def expectedSteps (a : SpawnArgs) (okF : Nat → Bool) (stF : Nat → Nat)
    (p : String) : List StepEntry :=
  let classPath := resolveClass a.actor_class
  let i1 := if a.mesh.isSome then 1 else 0
  let i2 := i1 + (if a.simulate_physics then 3 else 0)
  let i3 := i2 + (if a.label.isSome then 1 else 0)
  let i4 := i3 + (if a.rotation.isSome then 1 else 0)
  [StepEntry.info ("Spawned `" ++ classPath ++ "` → `" ++ p ++ "`")] ++
  (match a.mesh with
   | none => []
   | some m =>
     [entryIf (okF 1) ("Set mesh: " ++ resolveMesh m)
       ("Failed to set mesh (" ++ toString (stF 1) ++ ")")]) ++
  (if a.simulate_physics then
     [entryIf (okF (1 + i1)) "Set mobility: Movable"
        ("Failed to set mobility (" ++ toString (stF (1 + i1)) ++ ")"),
      entryIf (okF (2 + i1)) "Enabled physics simulation"
        ("Failed to enable physics (" ++ toString (stF (2 + i1)) ++ ")"),
      entryIf (okF (3 + i1)) "Enabled gravity"
        ("Failed to enable gravity (" ++ toString (stF (3 + i1)) ++ ")")]
   else []) ++
  (match a.label with
   | none => []
   | some lb =>
     [entryIf (okF (1 + i2)) ("Set label: \"" ++ lb ++ "\"")
       ("Failed to set label (" ++ toString (stF (1 + i2)) ++ ")")]) ++
  (match a.rotation with
   | none => []
   | some r =>
     [entryIf (okF (1 + i3))
       ("Set rotation: pitch=" ++ toString r.pitch ++ " yaw=" ++ toString r.yaw ++
         " roll=" ++ toString r.roll)
       ("Failed to set rotation (" ++ toString (stF (1 + i3)) ++ ")")]) ++
  (match a.scale with
   | none => []
   | some sc =>
     [entryIf (okF (1 + i4))
       ("Set scale: " ++ toString sc.x ++ ", " ++ toString sc.y ++ ", " ++ toString sc.z)
       ("Failed to set scale (" ++ toString (stF (1 + i4)) ++ ")")])

/- Closed form of the call trace of a successful spawn run. -/
def expectedCalls (a : SpawnArgs) (p : String) : List RcCall :=
  let classPath := resolveClass a.actor_class
  let meshComp := p ++ ".StaticMeshComponent0"
  [spawnActorCall classPath a.location] ++
  (match a.mesh with
   | none => []
   | some m => [meshSetCall meshComp (resolveMesh m)]) ++
  (if a.simulate_physics then
     [mobilityCall meshComp, simulateCall meshComp, gravityCall meshComp]
   else []) ++
  (match a.label with
   | none => []
   | some lb => [labelCall p lb]) ++
  (match a.rotation with
   | none => []
   | some r => [rotationCall p r]) ++
  (match a.scale with
   | none => []
   | some sc => [scaleCall p sc])

/- An oracle in which no call throws, built from outcome, status,
return-value and data functions. -/
def envOracle (okF : Nat → Bool) (stF : Nat → Nat) (rvF : Nat → Option String)
    (dF : Nat → String) : Nat → CallResult :=
  fun n => .env (okF n) (stF n) (rvF n) (dF n)

/-
Master lemma: a spawn run whose primary call succeeds with a usable actor
path and none of whose calls throws executes the whole fixed chain; the
result is the degraded-success text report, the call trace and step log
are the closed forms above, and the number of calls made equals the number
of log entries.
-/
theorem spawn_run (a : SpawnArgs) (okF : Nat → Bool) (stF : Nat → Nat)
    (rvF : Nat → Option String) (dF : Nat → String) (p : String)
    (h0 : okF 0 = true) (hrv : rvF 0 = some p) (hp : p ≠ "") :
    ue5_spawn_actor a (envOracle okF stF rvF dF) =
      (.text (renderSpawnReport p (expectedSteps a okF stF p)),
       ⟨spawnStepCount a, expectedCalls a p, expectedSteps a okF stF p⟩) := by
  obtain ⟨ac, mesh, label, loc, rot, scl, phys⟩ := a
  cases mesh <;> cases phys <;> cases label <;> cases rot <;> cases scl <;>
    simp [ue5_spawn_actor, envOracle, h0, hrv, jsTruthyStr, hp, configStep, seqStep,
      noErr, expectedSteps, expectedCalls, spawnStepCount, entryIf]

theorem isWarning_entryIf (b : Bool) (x y : String) :
    isWarning (entryIf b x y) = !b := by
  cases b <;> rfl

/- The size of the step log depends only on which inputs were supplied,
never on the outcomes of the configuration calls. -/
theorem expectedSteps_length (a : SpawnArgs) (okF : Nat → Bool)
    (stF : Nat → Nat) (p : String) :
    (expectedSteps a okF stF p).length = spawnStepCount a := by
  obtain ⟨ac, mesh, label, loc, rot, scl, phys⟩ := a
  cases mesh <;> cases phys <;> cases label <;> cases rot <;> cases scl <;>
    simp [expectedSteps, spawnStepCount]

/- Warnings in the step log correspond exactly to the configuration calls
(indices 1, 2, ... in the oracle) whose envelope was not ok. -/
theorem expectedSteps_warnings (a : SpawnArgs) (okF : Nat → Bool)
    (stF : Nat → Nat) (p : String) :
    (expectedSteps a okF stF p).countP isWarning =
      (List.range' 1 (spawnStepCount a - 1)).countP (fun i => !(okF i)) := by
  obtain ⟨ac, mesh, label, loc, rot, scl, phys⟩ := a
  have hinfo : ∀ m : String, isWarning (.info m) = false := fun _ => rfl
  cases mesh <;> cases phys <;> cases label <;> cases rot <;> cases scl <;>
    simp only [expectedSteps, spawnStepCount, List.countP_append, List.countP_cons,
      List.countP_nil, isWarning_entryIf, hinfo, List.range', Option.isSome_some,
      Option.isSome_none, if_true, if_false, List.append_nil, List.nil_append,
      List.cons_append, List.singleton_append, Bool.false_eq_true, Bool.not_eq_true] <;>
    norm_num

/- Light colors after zod validation (lines 1117-1124). -/
structure Col3 where
  r : Int
  g : Int
  b : Int
deriving DecidableEq, Repr

/- The light-class table (editor-control.ts lines 1095-1101). -/
def LIGHT_CLASSES : List (String × String) :=
  [("PointLight", "/Script/Engine.PointLight"),
   ("SpotLight", "/Script/Engine.SpotLight"),
   ("DirectionalLight", "/Script/Engine.DirectionalLight"),
   ("RectLight", "/Script/Engine.RectLight"),
   ("SkyLight", "/Script/Engine.SkyLight")]

/-
Arguments of `ue5_spawn_light` after zod validation (lines 1109-1129);
`intensity` defaults to 5000 and `cast_shadows` to true.  The schema's
enum restricts `light_type` to the keys of `LIGHT_CLASSES`, so the
"undefined" fallback used below for the raw record access
`LIGHT_CLASSES[light_type]` is unreachable for validated input.
-/
structure LightArgs where
  light_type : String
  location : Option Vec3
  rotation : Option Rot3
  label : Option String
  intensity : Int
  color : Option Col3
  attenuation_radius : Option Int
  inner_cone_angle : Option Int
  outer_cone_angle : Option Int
  cast_shadows : Bool
deriving DecidableEq, Repr

/-
A light configuration step that logs only on success (`if (res.ok)` with
no else branch): a failing call leaves the step log untouched.
-/
def stepOkOnly (oracle : Nat → CallResult) (st : RunSt) (c : RcCall)
    (okMsg : String) : RunSt × Option String :=
  match oracle st.n with
  | .thrown m => (⟨st.n + 1, st.calls ++ [c], st.steps⟩, some m)
  | .env ok _ _ _ =>
    (⟨st.n + 1, st.calls ++ [c],
      if ok then st.steps ++ [.info okMsg] else st.steps⟩, none)

/-
A light configuration step whose entry is pushed without inspecting the
call's result (the cone-angle, rotation and label steps of
`ue5_spawn_light` never check `ok`).
-/
def stepAlways (oracle : Nat → CallResult) (st : RunSt) (c : RcCall)
    (msg : String) : RunSt × Option String :=
  match oracle st.n with
  | .thrown m => (⟨st.n + 1, st.calls ++ [c], st.steps⟩, some m)
  | .env _ _ _ _ =>
    (⟨st.n + 1, st.calls ++ [c], st.steps ++ [.info msg]⟩, none)

def intensityCall (comp : String) (i : Int) : RcCall :=
  ⟨comp, "SetIntensity", [("NewIntensity", .pn i)]⟩

def colorCall (comp : String) (c : Col3) : RcCall :=
  ⟨comp, "SetLightColor", [("NewLightColor", .pcol c.r c.g c.b 255)]⟩

def attenuationCall (comp : String) (r : Int) : RcCall :=
  ⟨comp, "SetAttenuationRadius", [("NewRadius", .pn r)]⟩

def innerConeCall (comp : String) (v : Int) : RcCall :=
  ⟨comp, "SetInnerConeAngle", [("NewInnerConeAngle", .pn v)]⟩

def outerConeCall (comp : String) (v : Int) : RcCall :=
  ⟨comp, "SetOuterConeAngle", [("NewOuterConeAngle", .pn v)]⟩

def castShadowsCall (comp : String) (b : Bool) : RcCall :=
  ⟨comp, "SetCastShadows", [("NewCastShadows", .pb b)]⟩

def renderLightReport (actorPath : String) (steps : List StepEntry) : String :=
  "## Light Spawned\n\n- **Path**: `" ++ actorPath ++ "`\n" ++
    String.intercalate "\n" (steps.map (fun s => "- " ++ s.render))

/-
The light-spawn composite (editor-control.ts lines 1137-1230).  The
primary spawn aborts on failure exactly as `ue5_spawn_actor` does; the
configuration steps differ: intensity, color, attenuation radius and
cast-shadows log only on success and are silent on failure, while the
spot-light cone angles, rotation and label log unconditionally without
checking the result.  `attenuation_radius &&` is JS truthiness, so a
supplied radius of 0 skips the step.
-/
def ue5_spawn_light (a : LightArgs) (oracle : Nat → CallResult) :
    ToolResult × RunSt :=
  let classPath := (LIGHT_CLASSES.lookup a.light_type).getD "undefined"
  let loc := a.location.getD ⟨0, 0, 300⟩
  let st0 : RunSt :=
    ⟨1, [spawnActorCall classPath (some loc)], []⟩
  match oracle 0 with
  | .thrown m => (.error m, st0)
  | .env ok status returnValue dataStr =>
    if ok then
      match jsTruthyStr returnValue with
      | none => (.error "Spawn returned no actor path.", st0)
      | some actorPath =>
        let lightComp := actorPath ++ ".LightComponent0"
        let st1 : RunSt :=
          ⟨1, st0.calls, [.info ("Spawned " ++ a.light_type ++ " → `" ++ actorPath ++ "`")]⟩
        let r2 := stepOkOnly oracle st1 (intensityCall lightComp a.intensity)
          ("Intensity: " ++ toString a.intensity)
        let r3 := seqStep r2 (fun st =>
          match a.color with
          | none => noErr st
          | some c =>
            stepOkOnly oracle st (colorCall lightComp c)
              ("Color: (" ++ toString c.r ++ ", " ++ toString c.g ++ ", " ++
                toString c.b ++ ")"))
        let r4 := seqStep r3 (fun st =>
          match a.attenuation_radius with
          | none => noErr st
          | some rad =>
            if rad ≠ 0 ∧ a.light_type ≠ "DirectionalLight" ∧ a.light_type ≠ "SkyLight" then
              stepOkOnly oracle st (attenuationCall lightComp rad)
                ("Attenuation radius: " ++ toString rad)
            else noErr st)
        let r5 := seqStep r4 (fun st =>
          if a.light_type = "SpotLight" then
            seqStep
              (match a.inner_cone_angle with
               | none => noErr st
               | some v =>
                 stepAlways oracle st (innerConeCall lightComp v)
                   ("Inner cone: " ++ toString v ++ "°")) (fun st =>
              match a.outer_cone_angle with
              | none => noErr st
              | some v =>
                stepAlways oracle st (outerConeCall lightComp v)
                  ("Outer cone: " ++ toString v ++ "°"))
          else noErr st)
        let r6 := seqStep r5 (fun st =>
          stepOkOnly oracle st (castShadowsCall lightComp a.cast_shadows)
            ("Cast shadows: " ++ toString a.cast_shadows))
        let r7 := seqStep r6 (fun st =>
          match a.rotation with
          | none => noErr st
          | some r =>
            stepAlways oracle st (rotationCall actorPath r)
              ("Rotation: pitch=" ++ toString r.pitch ++ " yaw=" ++ toString r.yaw ++
                " roll=" ++ toString r.roll))
        let r8 := seqStep r7 (fun st =>
          match a.label with
          | none => noErr st
          | some lb =>
            stepAlways oracle st (labelCall actorPath lb)
              ("Label: \"" ++ lb ++ "\""))
        match r8 with
        | (st, some m) => (.error m, st)
        | (st, none) => (.text (renderLightReport actorPath st.steps), st)
    else (.error ("Spawn light failed (HTTP " ++ toString status ++ "): " ++ dataStr), st0)

/-
Command registry (editor-control.ts lines 739-796): an immutable table
mapping a command name to a fixed target/function/parameters triple plus a
human description.
-/
structure CommandDescriptor where
  objectPath : String
  functionName : String
  parameters : Option (List (String × PVal))
  description : String
deriving DecidableEq, Repr

def EDITOR_COMMANDS : List (String × CommandDescriptor) :=
  [("play",
    { objectPath := "/Script/UnrealEd.Default__UnrealEditorSubsystem"
      functionName := "StartPIE"
      parameters := some [("bSimulateInEditor", .pb false)]
      description := "Start Play In Editor (PIE)" }),
   ("simulate",
    { objectPath := "/Script/UnrealEd.Default__UnrealEditorSubsystem"
      functionName := "StartPIE"
      parameters := some [("bSimulateInEditor", .pb true)]
      description := "Start Simulate In Editor" }),
   ("stop",
    { objectPath := "/Script/UnrealEd.Default__UnrealEditorSubsystem"
      functionName := "EndPIE"
      parameters := none
      description := "Stop Play In Editor" }),
   ("save_current_level",
    { objectPath := "/Script/UnrealEd.Default__EditorLoadingAndSavingUtils"
      functionName := "SaveCurrentLevel"
      parameters := none
      description := "Save the current level" }),
   ("save_all",
    { objectPath := "/Script/UnrealEd.Default__EditorLoadingAndSavingUtils"
      functionName := "SaveDirtyPackages"
      parameters := some [("bPromptUserToSave", .pb false), ("bSaveMapPackages", .pb true),
        ("bSaveContentPackages", .pb true)]
      description := "Save all dirty packages" }),
   ("undo",
    { objectPath := "/Script/UnrealEd.Default__UnrealEditorSubsystem"
      functionName := "Undo"
      parameters := none
      description := "Undo the last action" }),
   ("redo",
    { objectPath := "/Script/UnrealEd.Default__UnrealEditorSubsystem"
      functionName := "Redo"
      parameters := none
      description := "Redo the last undone action" }),
   ("select_none",
    { objectPath := "/Script/UnrealEd.Default__EditorActorSubsystem"
      functionName := "ClearActorSelectionSet"
      parameters := none
      description := "Deselect all actors" }),
   ("delete_selected",
    { objectPath := "/Script/UnrealEd.Default__EditorActorSubsystem"
      functionName := "DestroySelectedActors"
      parameters := none
      description := "Delete all selected actors" }),
   ("duplicate_selected",
    { objectPath := "/Script/UnrealEd.Default__EditorActorSubsystem"
      functionName := "DuplicateSelectedActors"
      parameters := none
      description := "Duplicate all selected actors" })]

/-
`ue5_editor_command` (editor-control.ts lines 816-835): an unrecognized
name is rejected with `errorResult` before the single `rcCall` is issued
(the zod enum already rejects such names before the handler runs; the
handler's own `if (!cmd)` check is modelled by the lookup); a recognized
name issues exactly one call built from the descriptor — `rcCall` turns
`cmd.parameters` being undefined into `{}` — and on a 2xx envelope the
descriptor's description is echoed back.
-/
def ue5_editor_command (command : String) (oracle : Nat → CallResult) :
    ToolResult × List RcCall :=
  match EDITOR_COMMANDS.lookup command with
  | none => (.error ("Unknown command: " ++ command), [])
  | some cmd =>
    let c : RcCall := ⟨cmd.objectPath, cmd.functionName, cmd.parameters.getD []⟩
    match oracle 0 with
    | .thrown m => (.error m, [c])
    | .env ok status _ dataStr =>
      if ok then (.text ("Executed: **" ++ cmd.description ++ "**"), [c])
      else
        (.error ("Command \"" ++ command ++ "\" failed (HTTP " ++ toString status ++ "): " ++
          dataStr), [c])

/-
Batch translator (editor-control.ts lines 838-944).
-/
inductive BatchOpType where
  | call
  | property
deriving DecidableEq, Repr

/- One submitted operation after zod validation (lines 846-873). -/
structure BatchOperation where
  type : BatchOpType
  object_path : String
  function_name : Option String
  property_name : Option String
  parameters : Option (List (String × PVal))
  property_value : Option PVal
deriving DecidableEq, Repr

/- The wire shape of one entry of the `Requests` array (lines 884-909). -/
inductive BatchBody where
  | callBody (objectPath : String) (functionName : Option String)
      (parameters : List (String × PVal)) (generateTransaction : Bool)
  | propBody (objectPath : String) (propertyName : Option String)
      (propertyValue : Option PVal)
deriving DecidableEq, Repr

structure BatchRequest where
  RequestId : Nat
  URL : String
  Verb : String
  Body : BatchBody
deriving DecidableEq, Repr

def mkBatchRequest (index : Nat) (op : BatchOperation) : BatchRequest :=
  match op.type with
  | .call =>
    { RequestId := index
      URL := "/remote/object/call"
      Verb := "PUT"
      Body := .callBody op.object_path op.function_name (op.parameters.getD []) true }
  | .property =>
    { RequestId := index
      URL := "/remote/object/property"
      Verb := "PUT"
      Body := .propBody op.object_path op.property_name op.property_value }

def mkBatchRequests (operations : List BatchOperation) : List BatchRequest :=
  operations.enum.map (fun p => mkBatchRequest p.1 p.2)

/-
One entry of the host's response list.  `RequestId` may be absent (or a
number the submission never used); `StatusCode` and `status` are the two
status fields the code consults, absent modelled as `none`.
-/
structure BatchRespEntry where
  RequestId : Option Int
  StatusCode : Option Nat
  status : Option Nat
deriving DecidableEq, Repr

/-
The single transport round trip of the batch: either the `rcFetch` threw,
or it resolved to an envelope whose `data?.Responses || data` coerces to a
list of entries (`respList = none` models the non-array case, in which
`Array.isArray` fails and every per-operation lookup yields undefined).
-/
inductive BatchTransport where
  | thrown (msg : String)
  | env (ok : Bool) (status : Nat) (respList : Option (List BatchRespEntry))
      (dataStr : String)
deriving DecidableEq, Repr

/-
JS `||` over a possibly-0 number: 0 is falsy and falls through to the
alternative; `none` is the final `"?"` (which compares false against any
numeric bound).
-/
def jsNum : Option Nat → Option Nat
  | some 0 => none
  | x => x

/- `resp?.StatusCode || resp?.status || "?"` (line 926). -/
def effStatus (r : BatchRespEntry) : Option Nat :=
  match jsNum r.StatusCode with
  | some s => some s
  | none => jsNum r.status

/- The per-operation verdict the loop at lines 920-937 computes. -/
structure Verdict where
  ok : Bool
  status : Option Nat
deriving DecidableEq, Repr

/-
`responses.find(r => r.RequestId === i) || responses[i]` (line 923): the
first entry carrying the submission index as its `RequestId`, else the
entry at that position, else nothing.
-/
def respFor (responses : List BatchRespEntry) (i : Nat) : Option BatchRespEntry :=
  match responses.find? (fun r => r.RequestId == some (Int.ofNat i)) with
  | some r => some r
  | none => responses[i]?

def mkVerdict (resp : Option BatchRespEntry) : Verdict :=
  let st : Option Nat := match resp with
    | some r => effStatus r
    | none => none
  { ok := match st with
      | some s => decide (200 ≤ s ∧ s < 300)
      | none => false
    status := st }

/- One rendered line of the batch report (lines 930-936; JS interpolates
an absent function or property name as the string "undefined"). -/
def batchLine (i : Nat) (op : BatchOperation) (v : Verdict) : String :=
  toString (i + 1) ++ ". [" ++ (if v.ok then "OK" else "FAIL") ++ "] " ++
  (match op.type with
   | .call => "call `" ++ op.object_path ++ "`." ++ op.function_name.getD "undefined" ++ "()"
   | .property => "set `" ++ op.object_path ++ "`." ++ op.property_name.getD "undefined") ++
  " — " ++ (match v.status with | some s => toString s | none => "?") ++ "\n"

def renderBatchReport (operations : List BatchOperation) (verdicts : List Verdict) : String :=
  "## Batch Results (" ++ toString operations.length ++ " operations)\n\n" ++
    String.join ((operations.zip verdicts).enum.map
      (fun p => batchLine p.1 p.2.1 p.2.2))

/-
`ue5_batch` (editor-control.ts lines 882-944): translate every operation
into a `Requests` entry whose `RequestId` is its submission index, make
one transport call, and on an ok envelope demultiplex one verdict per
submitted operation; a thrown transport call or a non-ok envelope yields a
single `errorResult` (and no per-operation verdicts).  The returned triple
is the report, the built request list and the computed verdicts.
-/
def ue5_batch (operations : List BatchOperation) (transport : BatchTransport) :
    ToolResult × List BatchRequest × List Verdict :=
  let requests := mkBatchRequests operations
  match transport with
  | .thrown m => (.error m, requests, [])
  | .env ok status respList dataStr =>
    if ok then
      let verdicts := (List.range operations.length).map (fun i =>
        mkVerdict (match respList with
          | some rs => respFor rs i
          | none => none))
      (.text (renderBatchReport operations verdicts), requests, verdicts)
    else
      (.error ("Batch request failed (HTTP " ++ toString status ++ "): " ++ dataStr),
       requests, [])

/- Idempotence of the mesh resolver: a resolved path is never itself a
table key, so resolving it again returns it unchanged. -/
theorem resolveMesh_idem (t : String) : resolveMesh (resolveMesh t) = resolveMesh t := by
  unfold resolveMesh
  cases h : ENGINE_MESHES.lookup t with
  | none => simp [h]
  | some v =>
    simp only [h, Option.getD_some]
    have hv := lookup_mem_values _ _ _ h
    simp only [ENGINE_MESHES, List.map_cons, List.map_nil, List.mem_cons,
      List.not_mem_nil, or_false] at hv
    rcases hv with rfl | rfl | rfl | rfl | rfl <;> decide

theorem resolveClass_idem (t : String) : resolveClass (resolveClass t) = resolveClass t := by
  unfold resolveClass
  cases h : ACTOR_CLASSES.lookup t with
  | none => simp [h]
  | some v =>
    simp only [h, Option.getD_some]
    have hv := lookup_mem_values _ _ _ h
    simp only [ACTOR_CLASSES, List.map_cons, List.map_nil, List.mem_cons,
      List.not_mem_nil, or_false] at hv
    rcases hv with rfl | rfl | rfl | rfl | rfl | rfl | rfl | rfl | rfl | rfl | rfl |
      rfl | rfl | rfl <;> decide

/--
C5: for every RPC call that receives an HTTP response, `rcFetch` returns a
normal envelope (never an exception) whose `ok` holds iff the status lies
in [200, 300); the status is passed through, and a body that fails to
parse as JSON is returned as its raw text while a parsing body is returned
parsed.
-/
theorem C5_rcFetch_envelope {α : Type} (url : String) (status : Nat)
    (bodyText : String) (parse : String → Option α) :
    ∃ e : RcResponse α, rcFetch url (.response status bodyText) parse = .ok e ∧
      (e.ok = true ↔ 200 ≤ status ∧ status < 300) ∧
      e.status = status ∧
      (parse bodyText = none → e.data = .raw bodyText) ∧
      (∀ j, parse bodyText = some j → e.data = .json j) := by
  refine ⟨_, rfl, ?_, rfl, ?_, ?_⟩
  · simp
  · intro h
    simp [h]
  · intro j h
    simp [h]

/--
Witness for C5 at scenario C's shape: a 404 response whose body parses as
JSON comes back as a normal envelope with `ok = false`, status 404 and the
parsed body, with no exception raised.
-/
theorem C5_rcFetch_envelope_witness :
    ∃ e : RcResponse String,
      rcFetch "http://localhost:30010/remote/object/call" (.response 404 "not found")
        (fun s => some s) = .ok e ∧ e.ok = false ∧ e.status = 404 ∧
        e.data = .json "not found" := by
  obtain ⟨e, h1, h2, h3, h4, h5⟩ :=
    C5_rcFetch_envelope "http://localhost:30010/remote/object/call" 404 "not found"
      (fun s => some s)
  refine ⟨e, h1, ?_, h3, h5 "not found" rfl⟩
  cases he : e.ok with
  | false => rfl
  | true => exact absurd (h2.mp he) (by decide)

/--
C6: resolution is a pure total function — resolving twice yields the same
path, any token absent from the mesh table (resp. the actor-class table)
passes through unchanged, and resolution is idempotent.
-/
theorem C6_resolver_pure (t : String) :
    resolveMesh t = resolveMesh t ∧ resolveClass t = resolveClass t ∧
    (ENGINE_MESHES.lookup t = none → resolveMesh t = t) ∧
    (ACTOR_CLASSES.lookup t = none → resolveClass t = t) ∧
    resolveMesh (resolveMesh t) = resolveMesh t ∧
    resolveClass (resolveClass t) = resolveClass t := by
  refine ⟨rfl, rfl, ?_, ?_, resolveMesh_idem t, resolveClass_idem t⟩
  · intro h
    simp [resolveMesh, h]
  · intro h
    simp [resolveClass, h]

/--
Witness for C6: the unknown token "Foo" passes through both resolvers
unchanged, and resolving the known token "Cube" twice is the same as
resolving it once.
-/
theorem C6_resolver_pure_witness :
    resolveMesh "Foo" = "Foo" ∧ resolveClass "Foo" = "Foo" ∧
    resolveMesh (resolveMesh "Cube") = resolveMesh "Cube" := by
  refine ⟨(C6_resolver_pure "Foo").2.2.1 (by decide),
    (C6_resolver_pure "Foo").2.2.2.1 (by decide),
    (C6_resolver_pure "Cube").2.2.2.2.1⟩

/--
C1: when a mesh, `simulate_physics = true` and a label are supplied (and
no rotation or scale), and every call resolves to an envelope (none
throws) with the primary spawn succeeding with a usable actor path, the
step log is exactly: primary spawn, mesh-set, mobility, simulate, gravity,
label, in that fixed order — the physics triplet in the order mobility,
simulate, gravity — and each entry is the success entry or the warning
entry of its call according to the call's outcome.  The arguments are a
record, so the order is independent of how the inputs were supplied.
-/
theorem C1_spawn_step_order (a : SpawnArgs) (okF : Nat → Bool) (stF : Nat → Nat)
    (rvF : Nat → Option String) (dF : Nat → String) (p m lb : String)
    (hm : a.mesh = some m) (hph : a.simulate_physics = true)
    (hlb : a.label = some lb) (hrot : a.rotation = none) (hscl : a.scale = none)
    (h0 : okF 0 = true) (hrv : rvF 0 = some p) (hp : p ≠ "") :
    (ue5_spawn_actor a (envOracle okF stF rvF dF)).2.steps =
      [.info ("Spawned `" ++ resolveClass a.actor_class ++ "` → `" ++ p ++ "`"),
       entryIf (okF 1) ("Set mesh: " ++ resolveMesh m)
         ("Failed to set mesh (" ++ toString (stF 1) ++ ")"),
       entryIf (okF 2) "Set mobility: Movable"
         ("Failed to set mobility (" ++ toString (stF 2) ++ ")"),
       entryIf (okF 3) "Enabled physics simulation"
         ("Failed to enable physics (" ++ toString (stF 3) ++ ")"),
       entryIf (okF 4) "Enabled gravity"
         ("Failed to enable gravity (" ++ toString (stF 4) ++ ")"),
       entryIf (okF 5) ("Set label: \"" ++ lb ++ "\"")
         ("Failed to set label (" ++ toString (stF 5) ++ ")")] := by
  rw [spawn_run a okF stF rvF dF p h0 hrv hp]
  simp [expectedSteps, hm, hph, hlb, hrot, hscl]

def spawnArgsW : SpawnArgs :=
  ⟨"StaticMeshActor", some "Cube", some "Box1", none, none, none, true⟩

/--
Witness for C1, scenario A: mesh "Cube", physics on, label "Box1", all
calls succeeding — the step log is the six successes in the declared
order.
-/
theorem C1_spawn_step_order_witness :
    (ue5_spawn_actor spawnArgsW
        (envOracle (fun _ => true) (fun _ => 200) (fun _ => some "/Temp/Cube_1")
          (fun _ => "d"))).2.steps =
      [.info "Spawned `/Script/Engine.StaticMeshActor` → `/Temp/Cube_1`",
       .info "Set mesh: /Engine/BasicShapes/Cube.Cube",
       .info "Set mobility: Movable",
       .info "Enabled physics simulation",
       .info "Enabled gravity",
       .info "Set label: \"Box1\""] := by
  rw [C1_spawn_step_order spawnArgsW (fun _ => true) (fun _ => 200)
    (fun _ => some "/Temp/Cube_1") (fun _ => "d") "/Temp/Cube_1" "Cube" "Box1"
    rfl rfl rfl rfl rfl rfl rfl (by decide)]
  decide

/--
C3: a composite spawn whose primary call returns a non-ok envelope, or an
ok envelope without a usable `ReturnValue`, aborts with an error report
after exactly the one primary call — the call trace is the primary spawn
alone and no configuration call (mesh, physics, label, rotation, scale) is
made; the missing-identifier case produces the same abort shape as the
failure case.
-/
theorem C3_primary_failure_aborts (a : SpawnArgs) (okF : Nat → Bool)
    (stF : Nat → Nat) (rvF : Nat → Option String) (dF : Nat → String) :
    (okF 0 = false →
      ue5_spawn_actor a (envOracle okF stF rvF dF) =
        (.error ("Spawn failed (HTTP " ++ toString (stF 0) ++ "): " ++ dF 0),
         ⟨1, [spawnActorCall (resolveClass a.actor_class) a.location], []⟩)) ∧
    (okF 0 = true → jsTruthyStr (rvF 0) = none →
      ue5_spawn_actor a (envOracle okF stF rvF dF) =
        (.error ("Spawn returned no actor path. Response: " ++ dF 0),
         ⟨1, [spawnActorCall (resolveClass a.actor_class) a.location], []⟩)) := by
  constructor
  · intro h
    simp [ue5_spawn_actor, envOracle, h]
  · intro h hrv
    simp [ue5_spawn_actor, envOracle, h, hrv]

/--
Witness for C3: a primary failure with HTTP 500, and an ok primary whose
result carries no `ReturnValue`, both abort after the single spawn call.
-/
theorem C3_primary_failure_aborts_witness :
    ue5_spawn_actor spawnArgsW
        (envOracle (fun _ => false) (fun _ => 500) (fun _ => none) (fun _ => "boom")) =
      (.error "Spawn failed (HTTP 500): boom",
       ⟨1, [spawnActorCall "/Script/Engine.StaticMeshActor" none], []⟩) ∧
    ue5_spawn_actor spawnArgsW
        (envOracle (fun _ => true) (fun _ => 200) (fun _ => none) (fun _ => "odd")) =
      (.error "Spawn returned no actor path. Response: odd",
       ⟨1, [spawnActorCall "/Script/Engine.StaticMeshActor" none], []⟩) := by
  constructor
  · have h := (C3_primary_failure_aborts spawnArgsW (fun _ => false) (fun _ => 500)
      (fun _ => none) (fun _ => "boom")).1 rfl
    rw [h]
    decide
  · have h := (C3_primary_failure_aborts spawnArgsW (fun _ => true) (fun _ => 200)
      (fun _ => none) (fun _ => "odd")).2 rfl rfl
    rw [h]
    decide

/--
C4: once the primary spawn has succeeded with a usable path, a composite
run none of whose calls throws returns a normal (non-error) text report
containing the created path and the complete step log; the log equals the
closed-form log in which every failing configuration call contributes a
warning entry, and its length depends only on which inputs were supplied —
so a failing step never prevents a later step from executing.
-/
theorem C4_degraded_success (a : SpawnArgs) (okF : Nat → Bool) (stF : Nat → Nat)
    (rvF : Nat → Option String) (dF : Nat → String) (p : String)
    (h0 : okF 0 = true) (hrv : rvF 0 = some p) (hp : p ≠ "") :
    (ue5_spawn_actor a (envOracle okF stF rvF dF)).1 =
      .text (renderSpawnReport p ((ue5_spawn_actor a (envOracle okF stF rvF dF)).2.steps)) ∧
    (ue5_spawn_actor a (envOracle okF stF rvF dF)).2.steps =
      expectedSteps a okF stF p ∧
    ((ue5_spawn_actor a (envOracle okF stF rvF dF)).2.steps).length =
      spawnStepCount a := by
  rw [spawn_run a okF stF rvF dF p h0 hrv hp]
  exact ⟨rfl, rfl, expectedSteps_length a okF stF p⟩

def okFailMesh : Nat → Bool := fun n => decide (n ≠ 1)

/--
Witness for C4: with the mesh call failing (HTTP 500) and everything else
succeeding, the overall result is still the normal text report and the
step log keeps its full length of six entries.
-/
theorem C4_degraded_success_witness :
    (ue5_spawn_actor spawnArgsW
        (envOracle okFailMesh (fun _ => 500) (fun _ => some "/Temp/Cube_1")
          (fun _ => "d"))).1 =
      .text (renderSpawnReport "/Temp/Cube_1"
        ((ue5_spawn_actor spawnArgsW
          (envOracle okFailMesh (fun _ => 500) (fun _ => some "/Temp/Cube_1")
            (fun _ => "d"))).2.steps)) ∧
    (ue5_spawn_actor spawnArgsW
        (envOracle okFailMesh (fun _ => 500) (fun _ => some "/Temp/Cube_1")
          (fun _ => "d"))).2.steps =
      expectedSteps spawnArgsW okFailMesh (fun _ => 500) "/Temp/Cube_1" ∧
    ((ue5_spawn_actor spawnArgsW
        (envOracle okFailMesh (fun _ => 500) (fun _ => some "/Temp/Cube_1")
          (fun _ => "d"))).2.steps).length =
      spawnStepCount spawnArgsW :=
  C4_degraded_success spawnArgsW okFailMesh (fun _ => 500)
    (fun _ => some "/Temp/Cube_1") (fun _ => "d") "/Temp/Cube_1" (by decide) rfl
    (by decide)

def lightArgsW : LightArgs :=
  ⟨"PointLight", none, none, none, 5000, none, none, none, none, true⟩

def lightOracleW : Nat → CallResult := fun n =>
  if n = 1 then .env false 500 none ""
  else .env true 200 (some "/Temp/PointLight_1") ""

/--
Counterexample to C9: in the light-spawn composite, the `SetIntensity`
configuration call (the second call of the trace) returns a non-ok
envelope (HTTP 500), yet the returned report contains no warning at all —
the failing step is silently dropped: the step log holds only the spawn
entry and the cast-shadows entry, and the overall result is a plain text
report rendered from them.
-/
theorem C9_counterexample :
    lightOracleW 1 = .env false 500 none "" ∧
    (ue5_spawn_light lightArgsW lightOracleW).2.calls =
      [spawnActorCall "/Script/Engine.PointLight" (some ⟨0, 0, 300⟩),
       intensityCall "/Temp/PointLight_1.LightComponent0" 5000,
       castShadowsCall "/Temp/PointLight_1.LightComponent0" true] ∧
    (ue5_spawn_light lightArgsW lightOracleW).2.steps =
      [.info "Spawned PointLight → `/Temp/PointLight_1`",
       .info "Cast shadows: true"] ∧
    ((ue5_spawn_light lightArgsW lightOracleW).2.steps).countP isWarning = 0 ∧
    (ue5_spawn_light lightArgsW lightOracleW).1 =
      .text (renderLightReport "/Temp/PointLight_1"
        [.info "Spawned PointLight → `/Temp/PointLight_1`",
         .info "Cast shadows: true"]) := by
  refine ⟨rfl, ?_, ?_, ?_, ?_⟩ <;> decide

/--
C9 amended: restricted to `ue5_spawn_actor`, every configuration step
whose call returns a non-ok envelope appears in the returned report as an
inline warning — the number of warning entries in the step log equals the
number of failed configuration calls (so none is hidden or dropped), and
the report is the normal text rendering of that log.
`ue5_spawn_light` does not have this property (see the counterexample).
-/
theorem C9_spawn_actor_warnings_visible (a : SpawnArgs) (okF : Nat → Bool)
    (stF : Nat → Nat) (rvF : Nat → Option String) (dF : Nat → String) (p : String)
    (h0 : okF 0 = true) (hrv : rvF 0 = some p) (hp : p ≠ "") :
    ((ue5_spawn_actor a (envOracle okF stF rvF dF)).2.steps).countP isWarning =
      (List.range' 1 (spawnStepCount a - 1)).countP (fun i => !(okF i)) ∧
    (ue5_spawn_actor a (envOracle okF stF rvF dF)).1 =
      .text (renderSpawnReport p ((ue5_spawn_actor a (envOracle okF stF rvF dF)).2.steps)) := by
  rw [spawn_run a okF stF rvF dF p h0 hrv hp]
  exact ⟨expectedSteps_warnings a okF stF p, rfl⟩

/--
Witness for the amended C9: with the mesh call failing and the other five
calls succeeding, the spawn-actor step log contains exactly one warning.
-/
theorem C9_spawn_actor_warnings_visible_witness :
    ((ue5_spawn_actor spawnArgsW
        (envOracle okFailMesh (fun _ => 500) (fun _ => some "/Temp/Cube_1")
          (fun _ => "d"))).2.steps).countP isWarning =
      (List.range' 1 (spawnStepCount spawnArgsW - 1)).countP (fun i => !(okFailMesh i)) ∧
    (ue5_spawn_actor spawnArgsW
        (envOracle okFailMesh (fun _ => 500) (fun _ => some "/Temp/Cube_1")
          (fun _ => "d"))).1 =
      .text (renderSpawnReport "/Temp/Cube_1"
        ((ue5_spawn_actor spawnArgsW
          (envOracle okFailMesh (fun _ => 500) (fun _ => some "/Temp/Cube_1")
            (fun _ => "d"))).2.steps)) :=
  C9_spawn_actor_warnings_visible spawnArgsW okFailMesh (fun _ => 500)
    (fun _ => some "/Temp/Cube_1") (fun _ => "d") "/Temp/Cube_1" (by decide) rfl
    (by decide)

/--
C8: a name not in the command table is rejected with zero RPC calls; a
recognized name issues exactly one call carrying the descriptor's fixed
objectPath/functionName/parameters triple (with `rcCall` turning absent
parameters into the empty record), and on a 2xx envelope the stored
description is echoed back.
-/
theorem C8_registry_command (command : String) (oracle : Nat → CallResult) :
    (EDITOR_COMMANDS.lookup command = none →
      ue5_editor_command command oracle = (.error ("Unknown command: " ++ command), [])) ∧
    ∀ cmd, EDITOR_COMMANDS.lookup command = some cmd →
      (ue5_editor_command command oracle).2 =
        [⟨cmd.objectPath, cmd.functionName, cmd.parameters.getD []⟩] ∧
      ∀ st rv d, oracle 0 = .env true st rv d →
        (ue5_editor_command command oracle).1 =
          .text ("Executed: **" ++ cmd.description ++ "**") := by
  constructor
  · intro h
    simp [ue5_editor_command, h]
  · intro cmd h
    constructor
    · cases ho : oracle 0 with
      | thrown m => simp [ue5_editor_command, h, ho]
      | env ok st rv d => cases ok <;> simp [ue5_editor_command, h, ho]
    · intro st rv d ho
      simp [ue5_editor_command, h, ho]

def oracleOkW : Nat → CallResult := fun _ => .env true 200 none ""

def playDesc : CommandDescriptor :=
  { objectPath := "/Script/UnrealEd.Default__UnrealEditorSubsystem"
    functionName := "StartPIE"
    parameters := some [("bSimulateInEditor", .pb false)]
    description := "Start Play In Editor (PIE)" }

/--
Witness for C8, scenario D: the unknown name "fly" is rejected with no
call issued, while "play" issues exactly the play descriptor's fixed
triple and echoes its description.
-/
theorem C8_registry_command_witness :
    ue5_editor_command "fly" oracleOkW = (.error "Unknown command: fly", []) ∧
    (ue5_editor_command "play" oracleOkW).2 =
      [⟨"/Script/UnrealEd.Default__UnrealEditorSubsystem", "StartPIE",
        [("bSimulateInEditor", .pb false)]⟩] ∧
    (ue5_editor_command "play" oracleOkW).1 =
      .text "Executed: **Start Play In Editor (PIE)**" := by
  refine ⟨(C8_registry_command "fly" oracleOkW).1 (by decide), ?_, ?_⟩
  · have h := ((C8_registry_command "play" oracleOkW).2 playDesc (by decide)).1
    rw [h]
    decide
  · exact ((C8_registry_command "play" oracleOkW).2 playDesc (by decide)).2 200 none "" rfl

/- The success condition of a demultiplexed verdict is exactly an
effective status in [200, 300). -/
theorem mkVerdict_ok_iff (r0 : Option BatchRespEntry) :
    (mkVerdict r0).ok = true ↔
      ∃ s, (mkVerdict r0).status = some s ∧ 200 ≤ s ∧ s < 300 := by
  unfold mkVerdict
  cases r0 with
  | none => simp
  | some r =>
    cases h : effStatus r with
    | none => simp [h]
    | some s => simp [h, decide_eq_true_iff]

/--
C2: on a successful round trip, the batch reports exactly one verdict per
submitted operation; the verdict for submission index i is demultiplexed
from the first response entry whose `RequestId` equals i, falling back to
the entry at position i when no entry carries that id, and a verdict is a
success iff its effective status code lies in [200, 300).
-/
theorem C2_batch_demux (operations : List BatchOperation) (status : Nat)
    (rs : List BatchRespEntry) (dataStr : String)
    (hk1 : 1 ≤ operations.length) (hk50 : operations.length ≤ 50) :
    ((ue5_batch operations (.env true status (some rs) dataStr)).2.2).length =
      operations.length ∧
    (ue5_batch operations (.env true status (some rs) dataStr)).2.2 =
      (List.range operations.length).map (fun i =>
        mkVerdict (match rs.find? (fun r => r.RequestId == some (Int.ofNat i)) with
          | some r => some r
          | none => rs[i]?)) ∧
    (∀ i, i < operations.length → (∀ e ∈ rs, ¬(e.RequestId = some (Int.ofNat i))) →
      ((ue5_batch operations (.env true status (some rs) dataStr)).2.2)[i]? =
        some (mkVerdict rs[i]?)) ∧
    ∀ v ∈ (ue5_batch operations (.env true status (some rs) dataStr)).2.2,
      (v.ok = true ↔ ∃ s, v.status = some s ∧ 200 ≤ s ∧ s < 300) := by
  have hV : (ue5_batch operations (.env true status (some rs) dataStr)).2.2 =
      (List.range operations.length).map (fun i => mkVerdict (respFor rs i)) := rfl
  refine ⟨?_, ?_, ?_, ?_⟩
  · rw [hV]
    simp
  · rw [hV]
    simp only [respFor]
  · intro i hi hnone
    rw [hV]
    have hfind : rs.find? (fun r => r.RequestId == some (Int.ofNat i)) = none := by
      refine List.find?_eq_none.mpr (fun x hx => ?_)
      simpa using hnone x hx
    have hrf : respFor rs i = rs[i]? := by
      unfold respFor
      rw [hfind]
    have hrange : (List.range operations.length)[i]? = some i := by
      simp [List.getElem?_range, hi]
    rw [List.getElem?_map, hrange]
    simp [hrf]
  · intro v hv
    rw [hV] at hv
    obtain ⟨i, hmem, rfl⟩ := List.mem_map.mp hv
    exact mkVerdict_ok_iff _

def batchOpW : BatchOperation :=
  ⟨.call, "/Script/UnrealEd.Default__EditorActorSubsystem",
    some "GetAllLevelActors", none, none, none⟩

/--
Witness for C2: a one-operation batch whose response entry carries
`RequestId 0` and status 404 yields exactly one verdict, a failure.
-/
theorem C2_batch_demux_witness :
    ((ue5_batch [batchOpW]
        (.env true 200 (some [⟨some 0, some 404, none⟩]) "")).2.2).length = 1 ∧
    ∀ v ∈ (ue5_batch [batchOpW]
        (.env true 200 (some [⟨some 0, some 404, none⟩]) "")).2.2,
      (v.ok = true ↔ ∃ s, v.status = some s ∧ 200 ≤ s ∧ s < 300) := by
  have h := C2_batch_demux [batchOpW] 200 [⟨some 0, some 404, none⟩] ""
    (by decide) (by decide)
  exact ⟨h.1, h.2.2.2⟩

/--
C10: when the round trip succeeds but the response list is shorter than
the number of operations, the batch still reports one verdict per
operation, and an operation with neither a `RequestId` match nor a
positional entry is reported as a failure with status "?" — never as a
success and never omitted.
-/
theorem C10_truncated_response_failed (operations : List BatchOperation)
    (status : Nat) (rs : List BatchRespEntry) (dataStr : String) (i : Nat)
    (hi : i < operations.length) (htr : rs.length ≤ i)
    (hnone : ∀ e ∈ rs, ¬(e.RequestId = some (Int.ofNat i))) :
    ((ue5_batch operations (.env true status (some rs) dataStr)).2.2).length =
      operations.length ∧
    ((ue5_batch operations (.env true status (some rs) dataStr)).2.2)[i]? =
      some ⟨false, none⟩ := by
  have hV : (ue5_batch operations (.env true status (some rs) dataStr)).2.2 =
      (List.range operations.length).map (fun i => mkVerdict (respFor rs i)) := rfl
  constructor
  · rw [hV]
    simp
  · rw [hV]
    have hfind : rs.find? (fun r => r.RequestId == some (Int.ofNat i)) = none := by
      refine List.find?_eq_none.mpr (fun x hx => ?_)
      simpa using hnone x hx
    have hpos : rs[i]? = none := List.getElem?_eq_none htr
    have hrf : respFor rs i = none := by
      unfold respFor
      rw [hfind]
      exact hpos
    have hrange : (List.range operations.length)[i]? = some i := by
      simp [List.getElem?_range, hi]
    rw [List.getElem?_map, hrange]
    simp [hrf, mkVerdict]

/--
Witness for C10: two operations, one response entry (for `RequestId` 0):
the second operation still receives a verdict and it is a failure.
-/
theorem C10_truncated_response_failed_witness :
    ((ue5_batch [batchOpW, batchOpW]
        (.env true 200 (some [⟨some 0, some 200, none⟩]) "")).2.2).length = 2 ∧
    ((ue5_batch [batchOpW, batchOpW]
        (.env true 200 (some [⟨some 0, some 200, none⟩]) "")).2.2)[1]? =
      some ⟨false, none⟩ := by
  have h := C10_truncated_response_failed [batchOpW, batchOpW] 200
    [⟨some 0, some 200, none⟩] "" 1 (by decide) (by decide) (by decide)
  exact ⟨h.1, h.2⟩

/--
Counterexample to C7: when the batch transport call throws, the caller
does not receive a failure verdict for each of the k submitted operations:
for a one-operation batch the handler returns a single overall error
report and the per-operation verdict list is empty (0 verdicts, not 1).
-/
theorem C7_counterexample :
    (ue5_batch [batchOpW]
        (.thrown "Failed to connect to UE5 editor at http://localhost:30010/remote/batch: ECONNREFUSED")).1 =
      .error "Failed to connect to UE5 editor at http://localhost:30010/remote/batch: ECONNREFUSED" ∧
    (ue5_batch [batchOpW]
        (.thrown "Failed to connect to UE5 editor at http://localhost:30010/remote/batch: ECONNREFUSED")).2.2 =
      [] ∧
    ¬(((ue5_batch [batchOpW]
        (.thrown "Failed to connect to UE5 editor at http://localhost:30010/remote/batch: ECONNREFUSED")).2.2).length =
      1) := by
  refine ⟨rfl, rfl, by decide⟩

/--
C7 amended: when the batch transport call throws, the whole batch is
reported as failed through a single overall error result carrying the
thrown message; no per-operation verdict list is produced, so in
particular no operation is reported as succeeded.
-/
theorem C7_transport_throw_overall_error (operations : List BatchOperation)
    (msg : String) :
    ue5_batch operations (.thrown msg) =
      (.error msg, mkBatchRequests operations, []) := rfl

end UEBridge
